import Mathlib

/-!
Verification of the workflow-orchestration backend (`src/backend`) against its
natural-language specification.

The Python source is shallowly embedded: pure helpers become Lean functions,
the stateful worker / recovery / HTTP handlers become explicit state-passing
functions over a `SysState` (persisted workflow store plus persisted queue).

Modelling conventions, applied uniformly:
* `datetime`-valued fields (`createdAt`, `updatedAt`, `startTime`, `endTime`)
  and the derived human-readable `duration` string are elided: they carry real
  wall-clock time, and no claim under verification mentions them.
* Log lines are timestamped f-strings in the source; they are embedded as a
  `LogTag` inductive carrying the message identity (and its dynamic fields)
  without the timestamp text.
* The metric-aggregation block of `worker.py` (lines 192-225: `execution_metrics`,
  `workflow.metrics`, `workflow.cost_breakdown`) is elided: it writes only those
  three fields, which no claim mentions, and reads nothing any claim depends on.
* Adapter network calls are opaque in the source (HTTP to model providers); the
  worker sees them only as an `(output, error, metadata)` triple or a raised
  exception, embedded as the `Executor` / `ExecOutcome` abstraction.
-/

namespace Cognitive

/-- `JobStatus` from `models/workflow.py` (lines 6-12), bit-exact constructors. -/
inductive JobStatus
  | PENDING
  | RUNNING
  | COMPLETED
  | FAILED
  | WAITING_FOR_DEPENDENCY
  | STOPPED
deriving DecidableEq, Repr

/-- Primitive JSON value. `dec m e` is the decimal literal `m / 10^e`
(so `dec 1 3` is `0.001`), letting adapter cost/token literals be embedded
exactly without floating point. -/
inductive JPrim
  | null
  | bool (b : Bool)
  | str (s : String)
  | dec (mantissa : Int) (exp : Nat)
deriving DecidableEq, Repr

/-- JSON value for step `params`, `outputs` and adapter `metadata`
dictionaries. One level of object nesting suffices for every dictionary the
embedded code constructs or inspects, so `obj` fields hold primitives. -/
inductive Json
  | prim (p : JPrim)
  | obj (fields : List (String × JPrim))
deriving DecidableEq, Repr

/-- A step's `params` dictionary (`models/workflow.py` line 30). -/
abbrev Params := List (String × JPrim)

/-- Identity of the log lines appended by the source (timestamp text elided). -/
inductive LogTag
  | startedExecution
  | stepFailed (msg : String)
  | completedOk
  | queuedDepsMet
  | upstreamFailed (nodeId : String)
  | upstreamCriticalError (nodeId : String)
  | criticalError (msg : String)
  | recoveredFromRunning
  | reEvaluatingWaiting
  | requeuedDuringRecovery
  | resetForResume
  | requeuedOnResume
  | manuallyStopped
deriving DecidableEq, Repr

/-- `WorkflowStep` from `models/workflow.py` (lines 14-30). Datetime fields,
`duration` and `execution_metrics` elided (see file header). -/
structure WorkflowStep where
  id : String
  name : String
  action : String
  status : JobStatus
  dependencies : List String := []
  outputs : Option Json := none
  error : Option String := none
  logs : Option (List LogTag) := none
  metadata : Option Json := none
  on_failure : Option String := some "stop_workflow"
  params : Option Params := none
deriving DecidableEq, Repr

/-- `Workflow` from `models/workflow.py` (lines 32-45). `createdAt`/`updatedAt`,
`tags`, `parentId`, `branches`, `metrics` and `cost_breakdown` elided (real
time, or metric fields no claim mentions). -/
structure Workflow where
  id : String
  name : String
  status : JobStatus
  steps : List WorkflowStep
  description : Option String := none
  progress : Option Nat := none
deriving DecidableEq, Repr

/-- A queue entry `{'workflow_id': str, 'node_id': str}` (`queue_service.py`). -/
structure Ticket where
  workflow_id : String
  node_id : String
deriving DecidableEq, Repr

/-- The persisted workflow documents, keyed by workflow id: one
`<WORKFLOWS_DIR>/<id>/state.json` per entry, in directory-listing order. -/
abbrev Store := List (String × Workflow)

/-- The durable system state the claims quantify over: the state store
documents plus the persisted queue file (`queue-state.json`). -/
structure SysState where
  store : Store
  queue : List Ticket
deriving DecidableEq, Repr

/-! ## State store and queue primitives -/

/-- `StateManager.get` / `exists` (`services/state_manager.py` lines 25-36):
look up the persisted document for a workflow id. -/
def storeGet (store : Store) (wid : String) : Option Workflow :=
  (store.find? (fun p => p.1 == wid)).map (fun p => p.2)

/-- `StateManager.write` (`services/state_manager.py` lines 15-23) as seen by
subsequent readers: replace the document for `wid` (create it if absent).
The `updatedAt` stamp is elided (real time). -/
def storeWrite : Store → String → Workflow → Store
  | [], wid, wf => [(wid, wf)]
  | p :: rest, wid, wf =>
    if p.1 == wid then (wid, wf) :: rest
    else p :: storeWrite rest wid wf

/-- Membership test `f"{workflow_id}/{node_id}" == job_key` used for duplicate
suppression (`worker.py` line 235, `recovery_manager.py` line 84). Ids contain
no slash, so the string comparison is the pair comparison. -/
def inQueue (q : List Ticket) (wid nid : String) : Bool :=
  q.any (fun j => j.workflow_id == wid && j.node_id == nid)

/-! ## Pure helpers from `worker.py` -/

/-- The set `{s.id for s in workflow.steps if s.status == JobStatus.COMPLETED}`
(`worker.py` line 143 and analogues). -/
def completedIds (steps : List WorkflowStep) : List String :=
  (steps.filter (fun s => s.status == JobStatus.COMPLETED)).map (fun s => s.id)

/-- Round `n / d` (with `d > 0`) to the nearest integer, ties to even — the
IEEE-754 `roundTiesToEven` of an exact nonnegative quotient onto an integer
grid. -/
def rne (n d : Nat) : Nat :=
  let q := n / d
  let r := n % d
  if d < 2 * r then q + 1
  else if 2 * r < d then q
  else if q % 2 = 0 then q
  else q + 1

/-- Fueled search for the least `k` at or above the accumulator with
`bound ≤ c * 2^k` (the normalization shift of a binary64 quotient). -/
def searchShift (c bound : Nat) : Nat → Nat → Nat
  | 0, k => k
  | fuel + 1, k => if bound ≤ c * 2 ^ k then k else searchShift c bound fuel (k + 1)

/-- Fueled search for the least `s` at or above the accumulator with
`M < 2^53 * 2^s` (the normalization shift of a wide product). -/
def searchScale (M : Nat) : Nat → Nat → Nat
  | 0, s => s
  | fuel + 1, s => if M < 2 ^ 53 * 2 ^ s then s else searchScale M fuel (s + 1)

/-- The binary64 (IEEE-754 double) value of `c / t` for naturals
`0 < c ≤ t ≤ 2^53` (the regime of `completed / total` for any realizable step
list), returned as `(m, k)` with exact value `m / 2^k`: the quotient is
normalized so that `2^52 ≤ floor(c·2^k / t) < 2^53` and its 53-bit significand
is rounded to nearest, ties to even. For `c = 0` the result value is 0. -/
def floatDivSig (c t : Nat) : Nat × Nat :=
  let k := searchShift c (t * 2 ^ 52) (t + 53) 0
  (rne (c * 2 ^ k) t, k)

/-- Round a nonnegative integer `M < 2^64` to 53 significant bits, nearest
ties to even, returned as `(m, s)` with value `m * 2^s` — the binary64
rounding of a product whose exact value is `M` scaled by a power of two. -/
def round53 (M : Nat) : Nat × Nat :=
  if M < 2 ^ 53 then (M, 0)
  else
    let s := searchScale M (M + 54) 0
    (rne M (2 ^ s), s)

/-- `int((c / t) * 100)` computed as Python does (`worker.py` line 61):
`c / t` is the correctly rounded binary64 quotient, `* 100` the correctly
rounded binary64 product, and `int(...)` truncates toward zero. Because both
rounding steps are emulated bit-exactly, this can differ by one from the
exact floor — e.g. 29 of 100 gives 28, and 29 of 50 gives 57. -/
def float64ProgressPct (c t : Nat) : Nat :=
  let dm := floatDivSig c t
  let r2 := round53 (100 * dm.1)
  (r2.1 * 2 ^ r2.2) / 2 ^ dm.2

/-- `calculate_workflow_progress` (`worker.py` lines 54-61) on a step list:
0 for an empty list, else the binary64 computation
`int((completed / total) * 100)`. -/
def stepsProgress (steps : List WorkflowStep) : Nat :=
  if steps.isEmpty then 0
  else float64ProgressPct
    (steps.filter (fun s => s.status == JobStatus.COMPLETED)).length
    steps.length

/-- `calculate_workflow_progress` applied to a workflow (`worker.py` line 54). -/
def calculate_workflow_progress (w : Workflow) : Nat :=
  stepsProgress w.steps

/-- `next((n for n in workflow.steps if n.id == node_id), None)`
(`worker.py` line 136). -/
def findNode (steps : List WorkflowStep) (nid : String) : Option WorkflowStep :=
  steps.find? (fun n => n.id == nid)

/-- `step.logs = step.logs or []` followed by `step.logs.append(tag)`. -/
def appendLog (logs : Option (List LogTag)) (t : LogTag) : Option (List LogTag) :=
  some (logs.getD [] ++ [t])

/-- The dependency gate condition (`worker.py` lines 142-144): the step lists
dependencies and they are not all `COMPLETED`. -/
def depsUnmet (node : WorkflowStep) (steps : List WorkflowStep) : Bool :=
  !node.dependencies.isEmpty
    && !(node.dependencies.all (fun d => (completedIds steps).contains d))

/-- The idempotency gate condition (`worker.py` line 149):
`node.status in [COMPLETED, FAILED, STOPPED]`. -/
def isTerminalStatus (s : JobStatus) : Bool :=
  s == JobStatus.COMPLETED || s == JobStatus.FAILED || s == JobStatus.STOPPED

/-- `not any(s.status in non_terminal_statuses for s in workflow.steps)`
(`worker.py` lines 248-249). -/
def stepsAllSettled (steps : List WorkflowStep) : Bool :=
  !(steps.any (fun s =>
    s.status == JobStatus.PENDING || s.status == JobStatus.RUNNING
      || s.status == JobStatus.WAITING_FOR_DEPENDENCY))

/-- `isWorkflowTerminal` check at `worker.py` line 251. -/
def isWorkflowTerminal (w : Workflow) : Bool :=
  stepsAllSettled w.steps

/-- `has_critical_failure` (`worker.py` lines 253-256): some step `FAILED`
whose `on_failure` policy is `stop_workflow`. -/
def hasCriticalFailure (w : Workflow) : Bool :=
  w.steps.any (fun s =>
    s.status == JobStatus.FAILED && s.on_failure == some "stop_workflow")

/-! ## `execute_node` (`worker.py` lines 63-115) -/

/-- The `(output, error, metadata)` triple every adapter path returns. -/
structure ExecTriple where
  output : Option Json
  error : Option String
  metadata : Option Json
deriving DecidableEq, Repr

/-- The environment `execute_node` dispatches over: the `adapters` registry
built at import time (`worker.py` lines 15-35) and the three opaque network
paths (registered adapter call, legacy deepseek module, legacy gemini module),
whose internals (credential checks and HTTP calls, `worker.py` lines 67-110)
are abstracted as functions returning the triple the branch produces. -/
structure ExecEnv where
  registered : List String
  adapterCall : String → Params → ExecTriple
  legacyDeepseek : Params → ExecTriple
  legacyGemini : Params → ExecTriple

/-- Output of the simulation fallback (`worker.py` line 115, first component):
`{"simulated": True, "message": f"Action '{action}' simulated."}`. -/
def simulationOutput (action : String) : Json :=
  Json.obj [("simulated", JPrim.bool true),
            ("message", JPrim.str ("Action \x27" ++ action ++ "\x27 simulated."))]

/-- Metadata of the simulation fallback (`worker.py` line 115, third
component): `{"action": action, "simulated": True}`. -/
def simulationMetadata (action : String) : Json :=
  Json.obj [("action", JPrim.str action), ("simulated", JPrim.bool true)]

/-- `execute_node` (`worker.py` lines 63-115). The registered-adapter branch
and the two legacy branches end in opaque network calls taken from `env`; the
final `else` is the simulation fallback, embedded literally (its
`await asyncio.sleep(1)` is elided as real time). -/
def execute_node (env : ExecEnv) (action : String) (params : Params) : ExecTriple :=
  if env.registered.contains action then
    env.adapterCall action params
  else if action == "deepseek_chat" then
    env.legacyDeepseek params
  else if action == "gemini_chat" then
    env.legacyGemini params
  else
    { output := some (simulationOutput action)
      error := none
      metadata := some (simulationMetadata action) }

/-! ## One worker iteration (`run_worker`, `worker.py` lines 121-296)

The worker's view of one loop iteration is embedded as a function from the
durable `SysState` to the next one. The adapter invocation — the only
suspension point of the iteration — is abstracted as an `Executor`: it either
returns the `(output, error, metadata)` triple or raises (`worker.py` line
271's `except` arm); exceptions elsewhere in the `try` block are I/O failures
outside the model. -/

/-- Result of `await execute_node(...)` as observed by `run_worker`: the
triple, or an exception propagating to the `except` at line 271. -/
inductive ExecOutcome
  | ok (output : Option Json) (error : Option String) (metadata : Option Json)
  | raised (msg : String)
deriving DecidableEq, Repr

/-- The worker's adapter invocation, abstracted over node id, action, params. -/
abbrev Executor := String → String → Params → ExecOutcome

/-- Replace the first step whose `id` is `nid` by `f` of it — the in-place
mutation of the single object `next(...)` returned (`worker.py` line 136). -/
def updateFirst (steps : List WorkflowStep) (nid : String)
    (f : WorkflowStep → WorkflowStep) : List WorkflowStep :=
  match steps with
  | [] => []
  | s :: rest =>
    if s.id == nid then f s :: rest
    else s :: updateFirst rest nid f

/-- The RUNNING transition (`worker.py` lines 153-159): set the step RUNNING,
append the start log, and set the workflow RUNNING unless it is FAILED.
(`startTime` elided as real time.) -/
def runningTransition (wf : Workflow) (nid : String) : Workflow :=
  let wf1 := { wf with steps := updateFirst wf.steps nid (fun n =>
    { n with status := JobStatus.RUNNING
             logs := appendLog n.logs LogTag.startedExecution }) }
  if wf1.status != JobStatus.FAILED then { wf1 with status := JobStatus.RUNNING }
  else wf1

/-- The `stop_workflow` cascade loop (`worker.py` lines 180-186 and 285-290):
every step listing the failed node among its `dependencies` and currently
`PENDING` or `WAITING_FOR_DEPENDENCY` becomes `STOPPED`. -/
def cascadeStop (steps : List WorkflowStep) (nid : String) (tag : LogTag) :
    List WorkflowStep :=
  steps.map (fun s =>
    if s.dependencies.contains nid
        && (s.status == JobStatus.PENDING
            || s.status == JobStatus.WAITING_FOR_DEPENDENCY) then
      { s with status := JobStatus.STOPPED, logs := appendLog s.logs tag }
    else s)

/-- The adapter-error branch (`worker.py` lines 170-186). `node` is the step
object located at line 136; its `on_failure` attribute is read at line 175
(the preceding mutations do not touch it). `endTime`/`duration` elided. -/
def applyAdapterFailure (wf : Workflow) (node : WorkflowStep) (err : String)
    (metadata : Option Json) : Workflow :=
  let wf1 := { wf with steps := updateFirst wf.steps node.id (fun n =>
    { n with metadata := metadata
             status := JobStatus.FAILED
             error := some err
             logs := appendLog n.logs (LogTag.stepFailed err) }) }
  if node.on_failure == some "stop_workflow" then
    { wf1 with status := JobStatus.FAILED
               steps := cascadeStop wf1.steps node.id (LogTag.upstreamFailed node.id) }
  else wf1

/-- The success branch (`worker.py` lines 187-244): mark the node `COMPLETED`
with its outputs, then walk the steps queueing every `PENDING` step whose
(non-empty) dependencies are now all completed and whose ticket is not already
queued, flipping it to `WAITING_FOR_DEPENDENCY`. The metric aggregation
(lines 192-225) is elided (file header). The duplicate check at line 235 reads
the live queue, which grows during the loop, so the queue is threaded. -/
def applyAdapterSuccess (wf : Workflow) (nid : String) (output : Option Json)
    (metadata : Option Json) (wid : String) (q : List Ticket) :
    Workflow × List Ticket :=
  let wf1 := { wf with steps := updateFirst wf.steps nid (fun n =>
    { n with metadata := metadata
             status := JobStatus.COMPLETED
             outputs := output
             logs := appendLog n.logs LogTag.completedOk }) }
  let completed := completedIds wf1.steps
  let folded := wf1.steps.foldl (fun (acc : List WorkflowStep × List Ticket) s =>
    if s.status == JobStatus.PENDING
        && !s.dependencies.isEmpty
        && s.dependencies.all (fun d => completed.contains d) then
      if inQueue acc.2 wid s.id then (acc.1 ++ [s], acc.2)
      else
        (acc.1 ++ [{ s with status := JobStatus.WAITING_FOR_DEPENDENCY,
                            logs := appendLog s.logs LogTag.queuedDepsMet }],
         acc.2 ++ [⟨wid, s.id⟩])
    else (acc.1 ++ [s], acc.2)) ([], q)
  ({ wf1 with steps := folded.1 }, folded.2)

/-- End-of-iteration workflow bookkeeping (`worker.py` lines 246-266):
recompute `progress`; if no step is `PENDING`/`RUNNING`/`WAITING` the workflow
is terminal (FAILED is sticky, else FAILED on a critical failure, else
COMPLETED) and `progress` is forced to 100; otherwise a non-FAILED workflow is
RUNNING. -/
def finalizeWorkflow (wf : Workflow) : Workflow :=
  let wf1 := { wf with progress := some (calculate_workflow_progress wf) }
  if isWorkflowTerminal wf1 then
    let wf2 :=
      if wf1.status != JobStatus.FAILED then
        if hasCriticalFailure wf1 then { wf1 with status := JobStatus.FAILED }
        else { wf1 with status := JobStatus.COMPLETED }
      else wf1
    { wf2 with progress := some 100 }
  else
    if wf1.status != JobStatus.FAILED then { wf1 with status := JobStatus.RUNNING }
    else wf1

/-- The worker-exception branch (`worker.py` lines 271-296): the step is
FAILED with the exception text, the `on_failure` policy applies with the
critical-error cascade, and the document is written back (the workflow exists
here, so the `exists()` guard at line 295 passes). No progress or terminal
recomputation happens on this path. -/
def applyWorkerException (wf : Workflow) (node : WorkflowStep) (msg : String) :
    Workflow :=
  let wf1 := { wf with steps := updateFirst wf.steps node.id (fun n =>
    { n with status := JobStatus.FAILED
             error := some ("Worker processing error: " ++ msg)
             logs := appendLog n.logs (LogTag.criticalError msg) }) }
  if node.on_failure == some "stop_workflow" then
    { wf1 with status := JobStatus.FAILED
               steps := cascadeStop wf1.steps node.id
                 (LogTag.upstreamCriticalError node.id) }
  else wf1

/-- Processing of one dequeued job (`worker.py` lines 126-296). `rest` is the
persisted queue after `queue.get_next()` popped the job. A missing document
makes `state_manager.get()` raise, landing in the outer `except` with no
write; a missing node, unmet dependencies, or a terminal step each `continue`
with no write. -/
def processJob (exec : Executor) (store : Store) (job : Ticket)
    (rest : List Ticket) : SysState :=
  match storeGet store job.workflow_id with
  | none => ⟨store, rest⟩
  | some wf =>
    match findNode wf.steps job.node_id with
    | none => ⟨store, rest⟩
    | some node =>
      if depsUnmet node wf.steps then ⟨store, rest⟩
      else if isTerminalStatus node.status then ⟨store, rest⟩
      else
        let wfR := runningTransition wf job.node_id
        let store2 := storeWrite store job.workflow_id wfR
        match exec job.node_id node.action (node.params.getD []) with
        | ExecOutcome.raised msg =>
          ⟨storeWrite store2 job.workflow_id (applyWorkerException wfR node msg),
           rest⟩
        | ExecOutcome.ok output err metadata =>
          match err with
          | some e =>
            ⟨storeWrite store2 job.workflow_id
              (finalizeWorkflow (applyAdapterFailure wfR node e metadata)),
             rest⟩
          | none =>
            let sq := applyAdapterSuccess wfR job.node_id output metadata
              job.workflow_id rest
            ⟨storeWrite store2 job.workflow_id (finalizeWorkflow sq.1), sq.2⟩

/-- One iteration of the worker loop (`worker.py` lines 121-300): dequeue the
next ticket and process it; an empty queue leaves the state unchanged (the
worker sleeps). -/
def runWorkerIteration (exec : Executor) (st : SysState) : SysState :=
  match st.queue with
  | [] => st
  | job :: rest => processJob exec st.store job rest

/-! ## Recovery manager (`recovery_manager.py`) -/

/-- The per-step reset of `check_and_recover_orphans` (`recovery_manager.py`
lines 55-75): `RUNNING` steps go back to `PENDING` with `error` cleared,
`WAITING_FOR_DEPENDENCY` steps go back to `PENDING`; each appends its recovery
log line. (`endTime` elided as real time.) -/
def recoveryReset (s : WorkflowStep) : WorkflowStep :=
  if s.status == JobStatus.RUNNING then
    { s with status := JobStatus.PENDING,
             error := none,
             logs := appendLog s.logs LogTag.recoveredFromRunning }
  else if s.status == JobStatus.WAITING_FOR_DEPENDENCY then
    { s with status := JobStatus.PENDING,
             logs := appendLog s.logs LogTag.reEvaluatingWaiting }
  else s

/-- The re-queue condition of `check_and_recover_orphans` (lines 78-86),
evaluated after the reset on the same step: the step is `PENDING`, its
dependencies are empty or all in the pre-loop completed set, and its ticket is
not already in the queue. The queue is not mutated during the loop (tickets
are added after it, lines 95-98), and the completed set is computed once
before it (line 53), so the loop body is independent per step. -/
def recoveryRequeueApplies (completed : List String) (q : List Ticket)
    (wid : String) (s : WorkflowStep) : Bool :=
  let s1 := recoveryReset s
  s1.status == JobStatus.PENDING
    && (s1.dependencies.isEmpty
        || s1.dependencies.all (fun d => completed.contains d))
    && !(inQueue q wid s1.id)

/-- Full per-step transformation of recovery: reset, then mark
`WAITING_FOR_DEPENDENCY` with the re-queued log line when the re-queue
condition holds (lines 87-91). -/
def recoveryTransform (completed : List String) (q : List Ticket)
    (wid : String) (s : WorkflowStep) : WorkflowStep :=
  let s1 := recoveryReset s
  if recoveryRequeueApplies completed q wid s then
    { s1 with status := JobStatus.WAITING_FOR_DEPENDENCY,
              logs := appendLog s1.logs LogTag.requeuedDuringRecovery }
  else s1

/-- Recovery of one stuck workflow (`recovery_manager.py` lines 42-115),
already inside the `status in {RUNNING, PENDING, WAITING_FOR_DEPENDENCY}`
guard. Returns the mutated document, the ids queued (in step order), and
`needs_save` — true when the workflow status was reset, any step was reset, or
any step was re-queued. The document is persisted (with recomputed progress,
lines 101-113) only when `needs_save`. -/
def recoverWorkflow (q : List Ticket) (wid : String) (wf : Workflow) :
    Workflow × List String × Bool :=
  let statusReset := wf.status == JobStatus.RUNNING
  let wf1 := if statusReset then { wf with status := JobStatus.PENDING } else wf
  let completed := completedIds wf.steps
  let stepsNew := wf1.steps.map (recoveryTransform completed q wid)
  let requeued := (wf1.steps.filter (recoveryRequeueApplies completed q wid)).map
    (fun s => s.id)
  let needsSave := statusReset
    || wf1.steps.any (fun s =>
        s.status == JobStatus.RUNNING || s.status == JobStatus.WAITING_FOR_DEPENDENCY)
    || !requeued.isEmpty
  ({ wf1 with steps := stepsNew, progress := some (stepsProgress stepsNew) },
   requeued, needsSave)

/-- `RecoveryManager.check_and_recover_orphans` (`recovery_manager.py` lines
15-120): iterate the workflow directories (the store in listing order), skip
entries without a document, process stuck workflows — append their re-queue
tickets, then write the document when `needs_save`. -/
def check_and_recover_orphans (st : SysState) : SysState :=
  st.store.foldl (fun acc entry =>
    match storeGet acc.store entry.1 with
    | none => acc
    | some wf =>
      if wf.status == JobStatus.RUNNING || wf.status == JobStatus.PENDING
          || wf.status == JobStatus.WAITING_FOR_DEPENDENCY then
        let r := recoverWorkflow acc.queue entry.1 wf
        { store := if r.2.2 then storeWrite acc.store entry.1 r.1 else acc.store,
          queue := acc.queue ++ r.2.1.map (fun nid => Ticket.mk entry.1 nid) }
      else acc) st

/-- `RecoveryManager.cleanup_stale_queue_items` (`recovery_manager.py` lines
122-147): keep exactly the tickets that carry a truthy (non-empty)
`workflow_id` whose workflow document exists. (The source replaces the queue
only when something was removed; the result is the same filtered list.) -/
def cleanup_stale_queue_items (st : SysState) : SysState :=
  { st with queue := st.queue.filter (fun j =>
      j.workflow_id != "" && (storeGet st.store j.workflow_id).isSome) }

/-! ## Operator resume (`app.py` lines 317-366) -/

/-- The reset condition of `resume_workflow` (`app.py` line 339):
`status in [PENDING, WAITING_FOR_DEPENDENCY, STOPPED]`. -/
def resumeResetApplies (s : WorkflowStep) : Bool :=
  s.status == JobStatus.PENDING
    || s.status == JobStatus.WAITING_FOR_DEPENDENCY
    || s.status == JobStatus.STOPPED

/-- The re-queue condition of `resume_workflow` (`app.py` line 346):
dependencies empty or all completed (no duplicate-queue check here). -/
def resumeDepsOk (completed : List String) (s : WorkflowStep) : Bool :=
  s.dependencies.isEmpty || s.dependencies.all (fun d => completed.contains d)

/-- Per-step transformation of `resume_workflow` (`app.py` lines 337-349):
reset a `PENDING`/`WAITING_FOR_DEPENDENCY`/`STOPPED` step to `PENDING` with a
log line, then flip a `PENDING` step with satisfied dependencies to
`WAITING_FOR_DEPENDENCY` with a log line. The completed set is computed before
the loop (line 335) and the loop body touches only its own step, so the loop
is independent per step. -/
def resumeStepTransform (completed : List String) (s : WorkflowStep) :
    WorkflowStep :=
  let s1 :=
    if resumeResetApplies s then
      { s with status := JobStatus.PENDING,
               logs := appendLog s.logs LogTag.resetForResume }
    else s
  if s1.status == JobStatus.PENDING && resumeDepsOk completed s1 then
    { s1 with status := JobStatus.WAITING_FOR_DEPENDENCY,
              logs := appendLog s1.logs LogTag.requeuedOnResume }
  else s1

/-- Whether the step is collected into `nodes_to_requeue` (`app.py` line 347). -/
def resumeRequeueApplies (completed : List String) (s : WorkflowStep) : Bool :=
  (if resumeResetApplies s then JobStatus.PENDING else s.status)
      == JobStatus.PENDING
    && resumeDepsOk completed s

/-- `POST /api/workflows/{id}/resume` (`app.py` lines 317-366): 404 when the
document is missing; no action unless the workflow is `STOPPED` or `FAILED`;
otherwise reset the workflow to `PENDING`, transform every step, enqueue the
collected tickets (lines 353-355), and persist. -/
def resume_workflow (st : SysState) (wid : String) : SysState :=
  match storeGet st.store wid with
  | none => st
  | some wf =>
    if !(wf.status == JobStatus.STOPPED || wf.status == JobStatus.FAILED) then st
    else
      let completed := completedIds wf.steps
      let stepsNew := wf.steps.map (resumeStepTransform completed)
      let requeued := (wf.steps.filter (resumeRequeueApplies completed)).map
        (fun s => s.id)
      let wf2 := { wf with status := JobStatus.PENDING, steps := stepsNew }
      { store := storeWrite st.store wid wf2,
        queue := st.queue ++ requeued.map (fun nid => Ticket.mk wid nid) }

/-! ## File-level model of the state store (`services/state_manager.py`)

For the claims about crash safety and directory side effects the store is
modelled at file granularity: paths are segment lists, and each
`StateManager` operation is the sequence of file-system operations it issues. -/

/-- A file-system path as a list of segments. -/
abbrev FsPath := List String

/-- `settings.WORKFLOWS_DIR` (`config.py` line 7, default `"workflows"`). -/
def WORKFLOWS_DIR : String := "workflows"

/-- `self.workflow_dir = Path(settings.WORKFLOWS_DIR) / workflow_id`
(`state_manager.py` line 11). -/
def workflowDirPath (wid : String) : FsPath := [WORKFLOWS_DIR, wid]

/-- `self.state_file = self.workflow_dir / "state.json"`
(`state_manager.py` line 12). -/
def statePath (wid : String) : FsPath := [WORKFLOWS_DIR, wid, "state.json"]

/-- The file-system operations the state manager can issue. -/
inductive FsOp
  | mkdirAll (path : FsPath)
  | writeFileDirect (path : FsPath) (doc : Workflow)
  | renameFile (src dst : FsPath)
deriving DecidableEq, Repr

/-- `StateManager.__init__` (`state_manager.py` lines 9-13):
`self.workflow_dir.mkdir(parents=True, exist_ok=True)` — issued on every
construction, before any read or existence check. -/
def stateManagerInitOps (wid : String) : List FsOp :=
  [FsOp.mkdirAll (workflowDirPath wid)]

/-- `StateManager.write` (`state_manager.py` lines 15-23):
a single `self.state_file.write_text(...)` — one direct write of the
serialized document to `state.json`, nothing else. -/
def stateManagerWriteOps (wid : String) (wf : Workflow) : List FsOp :=
  [FsOp.writeFileDirect (statePath wid) wf]

/-- All non-empty prefixes of a path — the directories
`mkdir(parents=True)` ensures. -/
def pathPrefixes (p : FsPath) : List FsPath :=
  (List.range p.length).map (fun i => p.take (i + 1))

/-- File-system state: the set of directories and the files with their
(document) contents. -/
structure FileSystem where
  dirs : List FsPath
  files : List (FsPath × Workflow)
deriving DecidableEq, Repr

/-- Effect of one file-system operation. -/
def applyFsOp (fs : FileSystem) (op : FsOp) : FileSystem :=
  match op with
  | FsOp.mkdirAll p =>
    { fs with dirs := fs.dirs ++ (pathPrefixes p).filter (fun d => !fs.dirs.contains d) }
  | FsOp.writeFileDirect p doc =>
    { fs with files := (fs.files.filter (fun f => f.1 != p)) ++ [(p, doc)] }
  | FsOp.renameFile src dst =>
    { fs with files := fs.files.map (fun f => if f.1 == src then (dst, f.2) else f) }

/-- Effect of an operation sequence. -/
def applyFsOps (fs : FileSystem) (ops : List FsOp) : FileSystem :=
  ops.foldl applyFsOp fs

/-- Whether `state.json` for `wid` exists (`StateManager.exists`,
`state_manager.py` lines 35-36). -/
def fsStateFileGet (fs : FileSystem) (wid : String) : Option Workflow :=
  (fs.files.find? (fun f => f.1 == statePath wid)).map (fun f => f.2)

/-- `GET /api/workflows/{workflow_id}` (`app.py` lines 86-98) at file
granularity: construct a `StateManager` (which makes the directory), then
return the document, or 404 when `state.json` is absent. Returns the
file system after the handler and the HTTP status with optional body. -/
def get_workflow_by_id (fs : FileSystem) (wid : String) :
    FileSystem × Nat × Option Workflow :=
  let fs1 := applyFsOps fs (stateManagerInitOps wid)
  match fsStateFileGet fs1 wid with
  | none => (fs1, 404, none)
  | some wf => (fs1, 200, some wf)

/-- **Modelled from the spec** (§4.1 atomicity requirement; claim C6): the
crash-safe write pattern the specification prescribes — write the document to
a temporary file, then rename it onto `state.json` within the same directory.
Used only to compare the specified pattern against the operations the code
issues. -/
def isWriteTempThenRename (ops : List FsOp) (wid : String) : Bool :=
  match ops with
  | [FsOp.writeFileDirect tmp _, FsOp.renameFile src dst] =>
    src == tmp && dst == statePath wid && tmp != statePath wid
      && tmp.dropLast == (statePath wid).dropLast
  | _ => false

/-! ## Spec-side definitions for the remaining refinement comparisons -/

/-- **Modelled from the spec** (§4.3; claim C9): the synthetic simulation
output the spec claims — `{result: "simulated", action, params}`. -/
def claimedSimulationOutput (action : String) (params : Params) : Json :=
  Json.obj ([("result", JPrim.str "simulated"), ("action", JPrim.str action)]
    ++ params)

/-- **Modelled from the spec** (§4.3; claim C9): the simulation metadata the
spec claims — `{simulated: true, tokens: 100, cost: 0.001}`. -/
def claimedSimulationMetadata : Json :=
  Json.obj [("simulated", JPrim.bool true),
            ("tokens", JPrim.dec 100 0),
            ("cost", JPrim.dec 1 3)]

/-- Classifies the adapter outcomes the failure branches of `run_worker`
handle: a returned non-null `error` (`worker.py` line 170) or a raised
exception (line 271). -/
def isFailureOutcome : ExecOutcome → Bool
  | ExecOutcome.ok _ (some _) _ => true
  | ExecOutcome.raised _ => true
  | _ => false

/-- The progress relation claim C3 is corrected to: after the worker's
end-of-iteration write, `progress` is the percentage the program computes —
the binary64 evaluation of `int((completed / total) * 100)` — unless the
workflow has become terminal, in which case it is forced to 100. -/
def progressInvariant (w : Workflow) : Prop :=
  w.progress = some (if isWorkflowTerminal w then 100
                     else calculate_workflow_progress w)

/-! ## Concrete scenario states

Small literal workflows used to instantiate the theorems and to witness the
divergences. `simExec` is exactly what `execute_node` produces for an action
with no registered adapter; `failExec` is an adapter returning an error. -/

/-- The execution environment with an empty adapter registry (no API keys
configured at import time). -/
def envNoAdapters : ExecEnv :=
  { registered := [],
    adapterCall := fun _ _ => { output := none, error := none, metadata := none },
    legacyDeepseek := fun _ =>
      { output := none, error := some "DEEPSEEK_API_KEY not configured",
        metadata := some (Json.obj []) },
    legacyGemini := fun _ =>
      { output := none, error := some "gemini error", metadata := none } }

/-- Executor backed by `execute_node` under `envNoAdapters`, never raising —
the simulation environment. -/
def simExec : Executor := fun _nid action params =>
  let r := execute_node envNoAdapters action params
  ExecOutcome.ok r.output r.error r.metadata

/-- Executor whose adapter reports a step-level error. -/
def failExec : Executor := fun _ _ _ =>
  ExecOutcome.ok none (some "simulated adapter failure") none

/-- Step `A`: dependency-free, simulated action. -/
def stepA : WorkflowStep :=
  { id := "A", name := "A", action := "sim", status := JobStatus.PENDING }

/-- Step `B`: depends on `A`. -/
def stepB : WorkflowStep :=
  { id := "B", name := "B", action := "sim", status := JobStatus.PENDING,
    dependencies := ["A"] }

/-- Step `C`: depends on `B` — a transitive successor of `A`. -/
def stepC : WorkflowStep :=
  { id := "C", name := "C", action := "sim", status := JobStatus.PENDING,
    dependencies := ["B"] }

/-- Workflow for claim C1: ticket for `B` delivered while `A` is not
`COMPLETED`. -/
def wfDeferred : Workflow :=
  { id := "W1", name := "W1", status := JobStatus.RUNNING,
    steps := [stepA, stepB], progress := some 0 }

/-- System state for claim C1. -/
def stDeferred : SysState :=
  { store := [("W1", wfDeferred)], queue := [⟨"W1", "B"⟩] }

/-- Workflow for claim C2's transitivity counterexample: chain `A → B → C`. -/
def wfChain : Workflow :=
  { id := "WC", name := "WC", status := JobStatus.PENDING,
    steps := [stepA, stepB, stepC], progress := some 0 }

/-- System state for claim C2: the ticket for `A` is at the queue head and
`A`'s adapter will fail with `on_failure = stop_workflow`. -/
def stChain : SysState :=
  { store := [("WC", wfChain)], queue := [⟨"WC", "A"⟩] }

/-- Scenario S2 of the spec (claim C3): `W2` with failing `A`
(`on_failure = stop_workflow`) and `B` depending on `A`. -/
def wfS2 : Workflow :=
  { id := "W2", name := "W2", status := JobStatus.PENDING,
    steps := [stepA, stepB], progress := some 0 }

/-- System state for scenario S2. -/
def stS2 : SysState :=
  { store := [("W2", wfS2)], queue := [⟨"W2", "A"⟩] }

/-- The stored workflow after running the S2 iteration. -/
def s2Final : Option Workflow :=
  storeGet (runWorkerIteration failExec stS2).store "W2"

/-- Workflow for claim C4: crashed while `RUNNING`, one dependency-free
`PENDING` step. -/
def wfOrphan : Workflow :=
  { id := "WR", name := "WR", status := JobStatus.RUNNING,
    steps := [{ id := "G", name := "G", action := "sim",
                status := JobStatus.PENDING }], progress := some 0 }

/-- System state for claim C4's recovery-idempotence counterexample. -/
def stOrphan : SysState :=
  { store := [("WR", wfOrphan)], queue := [] }

/-- Workflow for claim C5: `FAILED` workflow containing a `FAILED` step. -/
def wfFailedStep : Workflow :=
  { id := "WF", name := "WF", status := JobStatus.FAILED,
    steps := [{ id := "F", name := "F", action := "sim",
                status := JobStatus.FAILED,
                error := some "simulated adapter failure" }],
    progress := some 0 }

/-- System state for claim C5's counterexample. -/
def stFailedStep : SysState :=
  { store := [("WF", wfFailedStep)], queue := [] }

/-- Workflow for claim C7: its only step is already `COMPLETED`, yet a stale
ticket for it sits in the queue. -/
def wfDoneStep : Workflow :=
  { id := "W7", name := "W7", status := JobStatus.COMPLETED,
    steps := [{ id := "D", name := "D", action := "sim",
                status := JobStatus.COMPLETED,
                outputs := some (Json.obj []) }],
    progress := some 100 }

/-- System state for claims C7 and C8: a ticket for a terminal step. -/
def stDoneStep : SysState :=
  { store := [("W7", wfDoneStep)], queue := [⟨"W7", "D"⟩] }

/-- A sample document for the state-store write-trace claims. -/
def wfSample : Workflow :=
  { id := "WS", name := "WS", status := JobStatus.PENDING, steps := [] }

/-- The empty file system: no workflow has ever been created. -/
def emptyFs : FileSystem := { dirs := [], files := [] }

/-! ## Helper lemmas -/

/-- Reading back the document just written returns it. -/
theorem storeGet_storeWrite_self (store : Store) (wid : String) (wf : Workflow) :
    storeGet (storeWrite store wid wf) wid = some wf := by
  induction store with
  | nil => simp [storeWrite, storeGet]
  | cons p rest ih =>
    by_cases h : (p.1 == wid) = true
    · simp [storeWrite, storeGet, h]
    · simp only [Bool.not_eq_true] at h
      simp [storeWrite, storeGet, h] at ih ⊢
      simpa [storeGet] using ih

/-- A step whose id differs from the updated one is untouched by
`updateFirst` and remains a member. -/
theorem mem_updateFirst_of_ne {s : WorkflowStep} {l : List WorkflowStep}
    (nid : String) (f : WorkflowStep → WorkflowStep)
    (hs : s ∈ l) (hne : (s.id == nid) = false) :
    s ∈ updateFirst l nid f := by
  induction l with
  | nil => cases hs
  | cons t rest ih =>
    rcases List.mem_cons.mp hs with rfl | hmem
    · simp [updateFirst, hne]
    · by_cases ht : (t.id == nid) = true
      · simp [updateFirst, ht, hmem]
      · simp only [Bool.not_eq_true] at ht
        simp [updateFirst, ht]
        exact Or.inr (ih hmem)

/-- A direct successor of the failed node that is `PENDING` or
`WAITING_FOR_DEPENDENCY` is `STOPPED` by the cascade. -/
theorem cascadeStop_mem_stopped {steps : List WorkflowStep} {s : WorkflowStep}
    (nid : String) (tag : LogTag) (hs : s ∈ steps)
    (hdep : s.dependencies.contains nid = true)
    (hst : s.status = JobStatus.PENDING
      ∨ s.status = JobStatus.WAITING_FOR_DEPENDENCY) :
    ∃ t ∈ cascadeStop steps nid tag,
      t.id = s.id ∧ t.status = JobStatus.STOPPED := by
  have hmem : nid ∈ s.dependencies := by simpa using hdep
  refine ⟨_, List.mem_map_of_mem _ hs, ?_, ?_⟩ <;>
    rcases hst with h | h <;> simp [hmem, h]

/-- A step that does not list the failed node among its dependencies is
untouched by the cascade. -/
theorem cascadeStop_mem_unchanged {steps : List WorkflowStep}
    {s : WorkflowStep} (nid : String) (tag : LogTag) (hs : s ∈ steps)
    (hdep : s.dependencies.contains nid = false) :
    s ∈ cascadeStop steps nid tag := by
  have hnotmem : nid ∉ s.dependencies := by simpa using hdep
  have heq : (if s.dependencies.contains nid
      && (s.status == JobStatus.PENDING
          || s.status == JobStatus.WAITING_FOR_DEPENDENCY) then
      { s with status := JobStatus.STOPPED, logs := appendLog s.logs tag }
    else s) = s := by simp [hnotmem]
  unfold cascadeStop
  exact List.mem_map.mpr ⟨s, hs, heq⟩

/-- The end-of-iteration bookkeeping never changes the step list. -/
theorem finalizeWorkflow_steps (w : Workflow) :
    (finalizeWorkflow w).steps = w.steps := by
  unfold finalizeWorkflow
  by_cases hterm : isWorkflowTerminal { w with progress := some (calculate_workflow_progress w) } = true
  · simp only [hterm, if_true]
    by_cases hfail : ({ w with progress := some (calculate_workflow_progress w) } : Workflow).status != JobStatus.FAILED
    · by_cases hcrit : hasCriticalFailure { w with progress := some (calculate_workflow_progress w) } = true <;>
        simp [hfail, hcrit]
    · simp [hfail]
  · simp only [Bool.not_eq_true] at hterm
    simp only [hterm, Bool.false_eq_true, if_false]
    by_cases hfail : ({ w with progress := some (calculate_workflow_progress w) } : Workflow).status != JobStatus.FAILED <;>
      simp [hfail]

/-- A workflow already `FAILED` stays `FAILED` through the end-of-iteration
bookkeeping. -/
theorem finalizeWorkflow_status_failed {w : Workflow}
    (h : w.status = JobStatus.FAILED) :
    (finalizeWorkflow w).status = JobStatus.FAILED := by
  unfold finalizeWorkflow
  simp [h]
  split <;> rfl

/-- After the end-of-iteration bookkeeping the stored `progress` is the
program-computed percentage, forced to 100 exactly when the workflow has
become terminal. -/
theorem progressInvariant_finalizeWorkflow (w : Workflow) :
    progressInvariant (finalizeWorkflow w) := by
  unfold progressInvariant finalizeWorkflow
  by_cases hterm : stepsAllSettled w.steps = true
  · by_cases hfail : ({ w with progress := some (calculate_workflow_progress w) } : Workflow).status != JobStatus.FAILED
    · by_cases hcrit : hasCriticalFailure { w with progress := some (calculate_workflow_progress w) } = true <;>
        simp [isWorkflowTerminal, hterm, hfail, hcrit]
    · simp [isWorkflowTerminal, hterm, hfail]
  · simp only [Bool.not_eq_true] at hterm
    by_cases hfail : ({ w with progress := some (calculate_workflow_progress w) } : Workflow).status != JobStatus.FAILED <;>
      simp [isWorkflowTerminal, hterm, hfail, calculate_workflow_progress]

/-- The RUNNING transition rewrites only the dequeued step. -/
theorem runningTransition_steps (wf : Workflow) (nid : String) :
    (runningTransition wf nid).steps
      = updateFirst wf.steps nid (fun n =>
          { n with status := JobStatus.RUNNING,
                   logs := appendLog n.logs LogTag.startedExecution }) := by
  unfold runningTransition
  dsimp only
  split <;> rfl

/-- Under the `stop_workflow` policy the adapter-error branch marks the
workflow `FAILED`. -/
theorem applyAdapterFailure_stop_status (wf : Workflow) (node : WorkflowStep)
    (er : String) (m : Option Json)
    (hpol : node.on_failure = some "stop_workflow") :
    (applyAdapterFailure wf node er m).status = JobStatus.FAILED := by
  unfold applyAdapterFailure
  simp [hpol]

/-- Under the `stop_workflow` policy the adapter-error branch produces the
cascade over the step list with the node marked `FAILED`. -/
theorem applyAdapterFailure_stop_steps (wf : Workflow) (node : WorkflowStep)
    (er : String) (m : Option Json)
    (hpol : node.on_failure = some "stop_workflow") :
    (applyAdapterFailure wf node er m).steps
      = cascadeStop
          (updateFirst wf.steps node.id (fun n =>
            { n with metadata := m, status := JobStatus.FAILED,
                     error := some er,
                     logs := appendLog n.logs (LogTag.stepFailed er) }))
          node.id (LogTag.upstreamFailed node.id) := by
  unfold applyAdapterFailure
  simp [hpol]

/-- Under the `stop_workflow` policy the worker-exception branch marks the
workflow `FAILED`. -/
theorem applyWorkerException_stop_status (wf : Workflow) (node : WorkflowStep)
    (msg : String) (hpol : node.on_failure = some "stop_workflow") :
    (applyWorkerException wf node msg).status = JobStatus.FAILED := by
  unfold applyWorkerException
  simp [hpol]

/-- Under the `stop_workflow` policy the worker-exception branch produces the
critical-error cascade over the step list with the node marked `FAILED`. -/
theorem applyWorkerException_stop_steps (wf : Workflow) (node : WorkflowStep)
    (msg : String) (hpol : node.on_failure = some "stop_workflow") :
    (applyWorkerException wf node msg).steps
      = cascadeStop
          (updateFirst wf.steps node.id (fun n =>
            { n with status := JobStatus.FAILED,
                     error := some ("Worker processing error: " ++ msg),
                     logs := appendLog n.logs (LogTag.criticalError msg) }))
          node.id (LogTag.upstreamCriticalError node.id) := by
  unfold applyWorkerException
  simp [hpol]

/-- The found node's id is the id searched for. -/
theorem findNode_id {steps : List WorkflowStep} {nid : String}
    {node : WorkflowStep} (h : findNode steps nid = some node) :
    node.id = nid := by
  have := List.find?_some h
  simpa using this

/-! ## Claim C1 — dependency gate -/

/-- **C1 counterexample.** The claim says a ticket whose step has a
non-`COMPLETED` dependency is re-enqueued, so it would still be in the queue
after the iteration. At `stDeferred` the dequeued ticket `(W1, B)` has the
unmet dependency `A`, yet after the iteration the queue is empty and the
store is untouched: the worker dropped the ticket. -/
theorem c1_dependency_gate_counterexample :
    depsUnmet stepB wfDeferred.steps = true
      ∧ runWorkerIteration simExec stDeferred = ⟨stDeferred.store, []⟩
      ∧ ¬ (Ticket.mk "W1" "B") ∈ (runWorkerIteration simExec stDeferred).queue := by
  refine ⟨by decide, by decide, by decide⟩

/-- **C1** (amended): a dequeued ticket whose step has at least one
non-`COMPLETED` dependency is discarded — the iteration ends with the store
unchanged and the queue equal to the remaining tickets, the deferred ticket
not re-enqueued (`worker.py` lines 141-146 log and `continue`). -/
theorem c1_dependency_gate_discards (exec : Executor) (store : Store)
    (job : Ticket) (rest : List Ticket) (wf : Workflow) (node : WorkflowStep)
    (hget : storeGet store job.workflow_id = some wf)
    (hfind : findNode wf.steps job.node_id = some node)
    (hdep : depsUnmet node wf.steps = true) :
    runWorkerIteration exec ⟨store, job :: rest⟩ = ⟨store, rest⟩ := by
  show processJob exec store job rest = ⟨store, rest⟩
  unfold processJob
  simp only [hget, hfind, hdep, if_true]

/-- **C1 witness**: the amended theorem applied at `stDeferred`. -/
theorem c1_dependency_gate_discards_witness :
    storeGet stDeferred.store "W1" = some wfDeferred
      ∧ findNode wfDeferred.steps "B" = some stepB
      ∧ depsUnmet stepB wfDeferred.steps = true
      ∧ runWorkerIteration simExec ⟨stDeferred.store, Ticket.mk "W1" "B" :: []⟩
          = ⟨stDeferred.store, []⟩ :=
  ⟨by decide, by decide, by decide,
   c1_dependency_gate_discards simExec stDeferred.store (Ticket.mk "W1" "B") []
     wfDeferred stepB (by decide) (by decide) (by decide)⟩

/-! ## Claim C2 — stop_workflow cascade -/

/-- **C2 counterexample.** The claim says every *transitive* successor in
`{PENDING, WAITING_FOR_DEPENDENCY}` is `STOPPED`. In the chain `A → B → C`,
when `A` fails with `on_failure = stop_workflow`, the stored document marks
the direct successor `B` `STOPPED` but leaves the transitive successor `C`
(status `PENDING`, reachable through `B`) untouched. -/
theorem c2_transitive_cascade_counterexample :
    (storeGet (runWorkerIteration failExec stChain).store "WC").map
        (fun w => (w.status, w.steps.map (fun s => (s.id, s.status))))
      = some (JobStatus.FAILED,
          [("A", JobStatus.FAILED), ("B", JobStatus.STOPPED),
           ("C", JobStatus.PENDING)])
      ∧ stepC.dependencies = ["B"] ∧ stepB.dependencies = ["A"] := by
  refine ⟨by decide, by decide, by decide⟩

/-- **C2** (amended): when a step fails (adapter error or worker exception)
under `on_failure = stop_workflow`, the worker sets the workflow `FAILED` and
stops exactly the **direct** successors — steps listing the failed node in
`dependencies` — that are `PENDING` or `WAITING_FOR_DEPENDENCY`; every other
step (in particular every strictly transitive successor) keeps its status
(`worker.py` lines 177-186 and 282-290). -/
theorem c2_stop_workflow_cascade_direct (exec : Executor) (store : Store)
    (job : Ticket) (rest : List Ticket) (wf : Workflow) (node : WorkflowStep)
    (hget : storeGet store job.workflow_id = some wf)
    (hfind : findNode wf.steps job.node_id = some node)
    (hdep : depsUnmet node wf.steps = false)
    (hterm : isTerminalStatus node.status = false)
    (hpol : node.on_failure = some "stop_workflow")
    (hfail : isFailureOutcome
      (exec job.node_id node.action (node.params.getD [])) = true) :
    ∃ wf',
      storeGet (runWorkerIteration exec ⟨store, job :: rest⟩).store
        job.workflow_id = some wf'
      ∧ wf'.status = JobStatus.FAILED
      ∧ (∀ s ∈ wf.steps, (s.id == job.node_id) = false →
          s.dependencies.contains job.node_id = true →
          (s.status = JobStatus.PENDING
            ∨ s.status = JobStatus.WAITING_FOR_DEPENDENCY) →
          ∃ t ∈ wf'.steps, t.id = s.id ∧ t.status = JobStatus.STOPPED)
      ∧ (∀ s ∈ wf.steps, (s.id == job.node_id) = false →
          s.dependencies.contains job.node_id = false →
          ∃ t ∈ wf'.steps, t.id = s.id ∧ t.status = s.status) := by
  have hid : node.id = job.node_id := findNode_id hfind
  show ∃ wf',
    storeGet (processJob exec store job rest).store job.workflow_id = some wf'
      ∧ _
  unfold processJob
  simp only [hget, hfind, hdep, hterm, Bool.false_eq_true, if_false]
  cases hE : exec job.node_id node.action (node.params.getD []) with
  | ok o e m =>
    cases e with
    | none => rw [hE] at hfail; simp [isFailureOutcome] at hfail
    | some er =>
      refine ⟨_, storeGet_storeWrite_self _ _ _, ?_, ?_, ?_⟩
      · exact finalizeWorkflow_status_failed
          (applyAdapterFailure_stop_status _ node er m hpol)
      · intro s hs hne hdeps hstat
        rw [finalizeWorkflow_steps, applyAdapterFailure_stop_steps _ node er m hpol]
        apply cascadeStop_mem_stopped
        · exact mem_updateFirst_of_ne node.id _
            (by rw [runningTransition_steps]
                exact mem_updateFirst_of_ne job.node_id _ hs (by simpa using hne))
            (by rw [hid]; simpa using hne)
        · rw [hid]; exact hdeps
        · exact hstat
      · intro s hs hne hdeps
        rw [finalizeWorkflow_steps, applyAdapterFailure_stop_steps _ node er m hpol]
        refine ⟨s, ?_, rfl, rfl⟩
        apply cascadeStop_mem_unchanged
        · exact mem_updateFirst_of_ne node.id _
            (by rw [runningTransition_steps]
                exact mem_updateFirst_of_ne job.node_id _ hs (by simpa using hne))
            (by rw [hid]; simpa using hne)
        · rw [hid]; exact hdeps
  | raised msg =>
    refine ⟨_, storeGet_storeWrite_self _ _ _, ?_, ?_, ?_⟩
    · exact applyWorkerException_stop_status _ node msg hpol
    · intro s hs hne hdeps hstat
      rw [applyWorkerException_stop_steps _ node msg hpol]
      apply cascadeStop_mem_stopped
      · exact mem_updateFirst_of_ne node.id _
          (by rw [runningTransition_steps]
              exact mem_updateFirst_of_ne job.node_id _ hs (by simpa using hne))
          (by rw [hid]; simpa using hne)
      · rw [hid]; exact hdeps
      · exact hstat
    · intro s hs hne hdeps
      rw [applyWorkerException_stop_steps _ node msg hpol]
      refine ⟨s, ?_, rfl, rfl⟩
      apply cascadeStop_mem_unchanged
      · exact mem_updateFirst_of_ne node.id _
          (by rw [runningTransition_steps]
              exact mem_updateFirst_of_ne job.node_id _ hs (by simpa using hne))
          (by rw [hid]; simpa using hne)
      · rw [hid]; exact hdeps

/-- **C2 witness**: the amended theorem applied at `stChain` with a failing
adapter: the workflow is `FAILED` and direct successor `B` is stopped. -/
theorem c2_stop_workflow_cascade_direct_witness :
    (isFailureOutcome (failExec "A" "sim" []) = true
      ∧ stepA.on_failure = some "stop_workflow")
    ∧ (∃ wf',
        storeGet (runWorkerIteration failExec
          ⟨stChain.store, Ticket.mk "WC" "A" :: []⟩).store "WC" = some wf'
        ∧ wf'.status = JobStatus.FAILED
        ∧ (∀ s ∈ wfChain.steps, (s.id == "A") = false →
            s.dependencies.contains "A" = true →
            (s.status = JobStatus.PENDING
              ∨ s.status = JobStatus.WAITING_FOR_DEPENDENCY) →
            ∃ t ∈ wf'.steps, t.id = s.id ∧ t.status = JobStatus.STOPPED)
        ∧ (∀ s ∈ wfChain.steps, (s.id == "A") = false →
            s.dependencies.contains "A" = false →
            ∃ t ∈ wf'.steps, t.id = s.id ∧ t.status = s.status)) :=
  ⟨⟨by decide, by decide⟩,
   c2_stop_workflow_cascade_direct failExec stChain.store (Ticket.mk "WC" "A")
     [] wfChain stepA (by decide) (by decide) (by decide) (by decide)
     (by decide) (by decide)⟩

/-! ## Claim C3 — progress formula and scenario S2 -/

/-- **C3 counterexample.** The claim says `progress` is forced to 100 *only*
when the workflow reaches `COMPLETED`, and that S2 ends with
`W2.progress = 0`. Running S2 (`A` fails under `stop_workflow`, `B` depends
on `A`) ends with the stored document `FAILED` — yet `progress = 100`, while
the progress formula itself gives 0 at that document (`worker.py` line 261
forces 100 for *any* terminal workflow). -/
theorem c3_progress_counterexample :
    s2Final.map (fun w => (w.status, w.progress)) =
        some (JobStatus.FAILED, some 100)
      ∧ s2Final.map calculate_workflow_progress = some 0 := by
  refine ⟨by decide, by decide⟩

/-- **C3** (amended): after the worker's end-of-iteration write the stored
document satisfies: `progress` equals the program's own percentage
computation — the binary64 evaluation of `int((|COMPLETED|/|steps|) * 100)`,
which can undershoot the exact floor by one (29 of 100 gives 28) — while
some step is still `PENDING`/`RUNNING`/`WAITING_FOR_DEPENDENCY`, and
`progress` is forced to 100 as soon as no step is — whether the workflow
ends `COMPLETED` or `FAILED`. In particular scenario S2 ends with
`A FAILED`, `B STOPPED`, workflow `FAILED`, `progress = 100`. -/
theorem c3_progress_invariant :
    (∀ (exec : Executor) (store : Store) (job : Ticket) (rest : List Ticket)
      (wf : Workflow) (node : WorkflowStep)
      (o : Option Json) (e : Option String) (m : Option Json),
      storeGet store job.workflow_id = some wf →
      findNode wf.steps job.node_id = some node →
      depsUnmet node wf.steps = false →
      isTerminalStatus node.status = false →
      exec job.node_id node.action (node.params.getD []) = ExecOutcome.ok o e m →
      ∃ wf',
        storeGet (runWorkerIteration exec ⟨store, job :: rest⟩).store
          job.workflow_id = some wf'
        ∧ progressInvariant wf')
    ∧ s2Final.map (fun w =>
        (w.status, w.progress, w.steps.map (fun s => (s.id, s.status))))
      = some (JobStatus.FAILED, some 100,
          [("A", JobStatus.FAILED), ("B", JobStatus.STOPPED)]) := by
  constructor
  · intro exec store job rest wf node o e m hget hfind hdep hterm hE
    show ∃ wf',
      storeGet (processJob exec store job rest).store job.workflow_id = some wf'
        ∧ progressInvariant wf'
    unfold processJob
    simp only [hget, hfind, hdep, hterm, Bool.false_eq_true, if_false, hE]
    cases e with
    | none =>
      exact ⟨_, storeGet_storeWrite_self _ _ _,
        progressInvariant_finalizeWorkflow _⟩
    | some er =>
      exact ⟨_, storeGet_storeWrite_self _ _ _,
        progressInvariant_finalizeWorkflow _⟩
  · decide

/-- **C3 witness**: the general part of the theorem applied at scenario S2. -/
theorem c3_progress_invariant_witness :
    (storeGet stS2.store "W2" = some wfS2
      ∧ failExec "A" "sim" []
          = ExecOutcome.ok none (some "simulated adapter failure") none)
    ∧ (∃ wf',
        storeGet (runWorkerIteration failExec
          ⟨stS2.store, Ticket.mk "W2" "A" :: []⟩).store "W2" = some wf'
        ∧ progressInvariant wf') :=
  ⟨⟨by decide, by decide⟩,
   c3_progress_invariant.1 failExec stS2.store (Ticket.mk "W2" "A") [] wfS2
     stepA none (some "simulated adapter failure") none
     (by decide) (by decide) (by decide) (by decide) (by decide)⟩

/-! ## Claim C4 — recovery idempotence -/

/-- **C4 counterexample.** Recovery is not idempotent: from `stOrphan`
(a `RUNNING` workflow with one dependency-free `PENDING` step) the post-state
of running recovery twice differs from running it once. -/
theorem c4_recovery_counterexample :
    check_and_recover_orphans (check_and_recover_orphans stOrphan)
      ≠ check_and_recover_orphans stOrphan := by
  decide

/-- **C4** (amended): recovery is idempotent on the queue but not on the
documents. At `stOrphan` the first run re-queues step `G` and marks it
`WAITING_FOR_DEPENDENCY`; the second run resets `G` back to `PENDING`
(`recovery_manager.py` lines 68-74) and appends another log line, while — the
ticket being already queued — the queue after two runs equals the queue after
one. -/
theorem c4_recovery_second_run_resets :
    ((storeGet (check_and_recover_orphans stOrphan).store "WR").map
        (fun w => w.steps.map (fun s => (s.id, s.status, s.logs)))
      = some [("G", JobStatus.WAITING_FOR_DEPENDENCY,
          some [LogTag.requeuedDuringRecovery])])
    ∧ ((storeGet (check_and_recover_orphans
          (check_and_recover_orphans stOrphan)).store "WR").map
        (fun w => w.steps.map (fun s => (s.id, s.status, s.logs)))
      = some [("G", JobStatus.PENDING,
          some [LogTag.requeuedDuringRecovery, LogTag.reEvaluatingWaiting])])
    ∧ (check_and_recover_orphans (check_and_recover_orphans stOrphan)).queue
        = (check_and_recover_orphans stOrphan).queue := by
  refine ⟨by decide, by decide, by decide⟩

/-- The resume transformation never changes a step's id. -/
theorem resumeStepTransform_id (completed : List String) (s : WorkflowStep) :
    (resumeStepTransform completed s).id = s.id := by
  unfold resumeStepTransform
  dsimp only
  split <;> split <;> rfl

/-- A step the resume reset applies to ends `WAITING_FOR_DEPENDENCY` when its
dependencies are empty or met, else `PENDING`. -/
theorem resumeStepTransform_status_reset (completed : List String)
    (s : WorkflowStep) (hreset : resumeResetApplies s = true) :
    (resumeStepTransform completed s).status
      = if resumeDepsOk completed s then JobStatus.WAITING_FOR_DEPENDENCY
        else JobStatus.PENDING := by
  unfold resumeStepTransform
  simp [hreset, resumeDepsOk]
  split <;> rfl

/-- A step the resume reset does not apply to, and which is not `PENDING`,
keeps its status through resume. -/
theorem resumeStepTransform_status_frozen (completed : List String)
    (s : WorkflowStep) (hreset : resumeResetApplies s = false)
    (hnp : (s.status == JobStatus.PENDING) = false) :
    (resumeStepTransform completed s).status = s.status := by
  unfold resumeStepTransform
  simp [hreset, hnp]

/-! ## Claim C5 — operator resume -/

/-- **C5 counterexample.** The claim says resume resets `FAILED` steps to
`PENDING` and re-queues them. Resuming `stFailedStep` (a `FAILED` workflow
whose step `F` is `FAILED`) leaves `F` `FAILED` and enqueues nothing:
`app.py` line 339 resets only `PENDING`/`WAITING_FOR_DEPENDENCY`/`STOPPED`. -/
theorem c5_resume_counterexample :
    (storeGet (resume_workflow stFailedStep "WF").store "WF").map
        (fun w => (w.status, w.steps.map (fun s => (s.id, s.status))))
      = some (JobStatus.PENDING, [("F", JobStatus.FAILED)])
      ∧ (resume_workflow stFailedStep "WF").queue = [] := by
  refine ⟨by decide, by decide⟩

/-- **C5** (amended): operator resume on a `STOPPED`/`FAILED` workflow resets
every step whose status is `STOPPED`, `PENDING`, or `WAITING_FOR_DEPENDENCY`
to `PENDING`, immediately re-queueing (and flipping to
`WAITING_FOR_DEPENDENCY`) those whose dependencies are empty or met;
`COMPLETED` steps are never reset — and neither are `FAILED` steps, which
keep their status (`app.py` lines 337-355). -/
theorem c5_resume_resets (st : SysState) (wid : String) (wf : Workflow)
    (hget : storeGet st.store wid = some wf)
    (hstat : wf.status = JobStatus.STOPPED ∨ wf.status = JobStatus.FAILED) :
    ∃ wf', storeGet (resume_workflow st wid).store wid = some wf'
      ∧ (∀ s ∈ wf.steps,
          (s.status = JobStatus.PENDING
            ∨ s.status = JobStatus.WAITING_FOR_DEPENDENCY
            ∨ s.status = JobStatus.STOPPED) →
          (∃ t ∈ wf'.steps, t.id = s.id
            ∧ t.status = (if resumeDepsOk (completedIds wf.steps) s
                then JobStatus.WAITING_FOR_DEPENDENCY else JobStatus.PENDING))
          ∧ (resumeDepsOk (completedIds wf.steps) s = true →
              Ticket.mk wid s.id ∈ (resume_workflow st wid).queue))
      ∧ (∀ s ∈ wf.steps, s.status = JobStatus.COMPLETED →
          ∃ t ∈ wf'.steps, t.id = s.id ∧ t.status = JobStatus.COMPLETED)
      ∧ (∀ s ∈ wf.steps, s.status = JobStatus.FAILED →
          ∃ t ∈ wf'.steps, t.id = s.id ∧ t.status = JobStatus.FAILED) := by
  have hguard : (!(wf.status == JobStatus.STOPPED
      || wf.status == JobStatus.FAILED)) = false := by
    rcases hstat with h | h <;> simp [h]
  unfold resume_workflow
  simp only [hget, hguard, Bool.false_eq_true, if_false]
  refine ⟨_, storeGet_storeWrite_self _ _ _, ?_, ?_, ?_⟩
  · intro s hs hstep
    have hreset : resumeResetApplies s = true := by
      rcases hstep with h | h | h <;> simp [resumeResetApplies, h]
    constructor
    · exact ⟨_, List.mem_map_of_mem _ hs, resumeStepTransform_id _ _,
        resumeStepTransform_status_reset _ _ hreset⟩
    · intro hok
      apply List.mem_append_right
      have hrq : resumeRequeueApplies (completedIds wf.steps) s = true := by
        simp [resumeRequeueApplies, hreset, hok]
      exact List.mem_map_of_mem _
        (List.mem_map_of_mem _ (List.mem_filter_of_mem hs hrq))
  · intro s hs hstep
    refine ⟨_, List.mem_map_of_mem _ hs, resumeStepTransform_id _ _, ?_⟩
    rw [resumeStepTransform_status_frozen _ _ (by simp [resumeResetApplies, hstep])
      (by simp [hstep]), hstep]
  · intro s hs hstep
    refine ⟨_, List.mem_map_of_mem _ hs, resumeStepTransform_id _ _, ?_⟩
    rw [resumeStepTransform_status_frozen _ _ (by simp [resumeResetApplies, hstep])
      (by simp [hstep]), hstep]

/-- **C5 witness**: the amended theorem applied at `stFailedStep`. -/
theorem c5_resume_resets_witness :
    (storeGet stFailedStep.store "WF" = some wfFailedStep
      ∧ wfFailedStep.status = JobStatus.FAILED)
    ∧ (∃ wf', storeGet (resume_workflow stFailedStep "WF").store "WF" = some wf'
        ∧ (∀ s ∈ wfFailedStep.steps, s.status = JobStatus.FAILED →
            ∃ t ∈ wf'.steps, t.id = s.id ∧ t.status = JobStatus.FAILED)) :=
  ⟨⟨by decide, by decide⟩,
   match c5_resume_resets stFailedStep "WF" wfFailedStep (by decide)
       (Or.inr (by decide)) with
   | ⟨wf', hg, _, _, hfailed⟩ => ⟨wf', hg, hfailed⟩⟩

/-! ## Claim C8 — idempotency gate is a no-op -/

/-- **C8** (confirmed): delivering a ticket for a step already in a terminal
state (`COMPLETED`, `FAILED`, `STOPPED`) leaves the persisted store unchanged
and merely consumes the ticket: no field is mutated, no write is issued
(`worker.py` lines 148-151; the dependency gate at 141-146 can fire first for
such a step, with the same outcome). -/
theorem c8_terminal_ticket_noop (exec : Executor) (store : Store)
    (job : Ticket) (rest : List Ticket) (wf : Workflow) (node : WorkflowStep)
    (hget : storeGet store job.workflow_id = some wf)
    (hfind : findNode wf.steps job.node_id = some node)
    (hterm : isTerminalStatus node.status = true) :
    runWorkerIteration exec ⟨store, job :: rest⟩ = ⟨store, rest⟩ := by
  show processJob exec store job rest = ⟨store, rest⟩
  unfold processJob
  by_cases hdep : depsUnmet node wf.steps = true
  · simp only [hget, hfind, hdep, if_true]
  · simp only [Bool.not_eq_true] at hdep
    simp only [hget, hfind, hdep, hterm, Bool.false_eq_true, if_false, if_true]

/-- **C8 witness**: the theorem applied at `stDoneStep`, whose only step `D`
is `COMPLETED`. -/
theorem c8_terminal_ticket_noop_witness :
    storeGet stDoneStep.store "W7" = some wfDoneStep
      ∧ isTerminalStatus JobStatus.COMPLETED = true
      ∧ runWorkerIteration simExec ⟨stDoneStep.store, Ticket.mk "W7" "D" :: []⟩
          = ⟨stDoneStep.store, []⟩ :=
  ⟨by decide, by decide,
   c8_terminal_ticket_noop simExec stDoneStep.store (Ticket.mk "W7" "D") []
     wfDoneStep { id := "D", name := "D", action := "sim",
                  status := JobStatus.COMPLETED, outputs := some (Json.obj []) }
     (by decide) (by decide) (by decide)⟩

/-! ## Claim C6 — state-store write atomicity -/

/-- **C6 counterexample.** The claim says `write` persists via
write-to-temp-then-rename. The trace of operations `StateManager.write`
issues is a single direct write to `state.json` and does not match the
crash-safe temp-then-rename pattern the spec prescribes. -/
theorem c6_write_not_atomic_counterexample :
    stateManagerWriteOps "WS" wfSample
      = [FsOp.writeFileDirect (statePath "WS") wfSample]
      ∧ isWriteTempThenRename (stateManagerWriteOps "WS" wfSample) "WS" = false :=
  ⟨rfl, rfl⟩

/-- **C6** (amended): `StateManager.write` persists the document with a single
direct `write_text` to `<WORKFLOWS_DIR>/<id>/state.json` — no temporary file
and no rename — so it does not implement the specified crash-safe pattern
(`state_manager.py` line 19). -/
theorem c6_write_direct (wid : String) (wf : Workflow) :
    isWriteTempThenRename (stateManagerWriteOps wid wf) wid = false
      ∧ ∀ op ∈ stateManagerWriteOps wid wf,
          op = FsOp.writeFileDirect (statePath wid) wf := by
  refine ⟨rfl, ?_⟩
  intro op hop
  simpa [stateManagerWriteOps] using hop

/-- **C6 witness**: the amended theorem applied to a concrete document. -/
theorem c6_write_direct_witness :
    isWriteTempThenRename (stateManagerWriteOps "WS2" wfSample) "WS2" = false
      ∧ FsOp.writeFileDirect (statePath "WS2") wfSample
          = FsOp.writeFileDirect (statePath "WS2") wfSample :=
  ⟨(c6_write_direct "WS2" wfSample).1,
   (c6_write_direct "WS2" wfSample).2 _ (by simp [stateManagerWriteOps])⟩

/-! ## Claim C7 — startup queue cleanup -/

/-- **C7 counterexample.** The claim says cleanup also removes tickets whose
step is already terminal. At `stDoneStep` the ticket `(W7, D)` references
step `D`, which is `COMPLETED` (terminal), yet cleanup keeps it: the code
checks only workflow-document existence (`recovery_manager.py` lines
128-146). -/
theorem c7_cleanup_keeps_terminal_counterexample :
    (cleanup_stale_queue_items stDoneStep).queue = [Ticket.mk "W7" "D"]
      ∧ (storeGet stDoneStep.store "W7").isSome = true
      ∧ ((storeGet stDoneStep.store "W7").bind
          (fun w => findNode w.steps "D")).map
            (fun s => isTerminalStatus s.status) = some true := by
  refine ⟨by decide, by decide, by decide⟩

/-- **C7** (amended): startup queue cleanup keeps exactly the tickets whose
(non-empty) `workflow_id` has an existing workflow document; it removes
tickets for missing workflows and nothing else — in particular it never
inspects the referenced step's status. -/
theorem c7_cleanup_exact (st : SysState) (t : Ticket) :
    t ∈ (cleanup_stale_queue_items st).queue
      ↔ t ∈ st.queue ∧ t.workflow_id ≠ ""
          ∧ (storeGet st.store t.workflow_id).isSome = true := by
  simp [cleanup_stale_queue_items, List.mem_filter, and_assoc]

/-- **C7 witness**: the amended theorem instantiated at `stDoneStep`. -/
theorem c7_cleanup_exact_witness :
    Ticket.mk "W7" "D" ∈ (cleanup_stale_queue_items stDoneStep).queue
      ↔ Ticket.mk "W7" "D" ∈ stDoneStep.queue ∧ ("W7" : String) ≠ ""
          ∧ (storeGet stDoneStep.store "W7").isSome = true :=
  c7_cleanup_exact stDoneStep (Ticket.mk "W7" "D")

/-! ## Claim C9 — simulation fallback -/

/-- **C9 counterexample.** The claim says the fallback returns output
`{result: "simulated", action, params}` and metadata
`{simulated: true, tokens: 100, cost: 0.001}`. For the unregistered action
`"browse"` the code returns a different triple. -/
theorem c9_simulation_counterexample :
    execute_node envNoAdapters "browse" []
      ≠ { output := some (claimedSimulationOutput "browse" []),
          error := none,
          metadata := some claimedSimulationMetadata } := by
  decide

/-- **C9** (amended): for an action with no registered adapter — and distinct
from the legacy actions `deepseek_chat` and `gemini_chat`, which take their
own branches — `execute_node` returns, after a 1 s sleep, the synthetic
output `{simulated: true, message: "Action '<action>' simulated."}`, a null
error, and the metadata `{action: <action>, simulated: true}`
(`worker.py` line 115). -/
theorem c9_simulation_shape (env : ExecEnv) (action : String) (params : Params)
    (hreg : env.registered.contains action = false)
    (hds : (action == "deepseek_chat") = false)
    (hgm : (action == "gemini_chat") = false) :
    execute_node env action params
      = { output := some (Json.obj [("simulated", JPrim.bool true),
            ("message",
             JPrim.str ("Action \x27" ++ action ++ "\x27 simulated."))]),
          error := none,
          metadata := some (Json.obj [("action", JPrim.str action),
            ("simulated", JPrim.bool true)]) } := by
  have hmem : action ∉ env.registered := by simpa using hreg
  have hne1 : action ≠ "deepseek_chat" := by simpa using hds
  have hne2 : action ≠ "gemini_chat" := by simpa using hgm
  unfold execute_node
  simp [hmem, hne1, hne2, simulationOutput, simulationMetadata]

/-- **C9 witness**: the amended theorem applied to the unregistered action
`"browse"`. -/
theorem c9_simulation_shape_witness :
    envNoAdapters.registered.contains "browse" = false
      ∧ execute_node envNoAdapters "browse" []
        = { output := some (Json.obj [("simulated", JPrim.bool true),
              ("message", JPrim.str "Action \x27browse\x27 simulated.")]),
            error := none,
            metadata := some (Json.obj [("action", JPrim.str "browse"),
              ("simulated", JPrim.bool true)]) } :=
  ⟨by decide,
   c9_simulation_shape envNoAdapters "browse" [] (by decide) (by decide)
     (by decide)⟩

/-! ## Claim C10 — StateManager construction side effect -/

/-- **C10** (confirmed): constructing a `StateManager` issues
`mkdir(parents=True, exist_ok=True)` for `<WORKFLOWS_DIR>/<id>`, so
`GET /api/workflows/{id}` for an id with no `state.json` responds 404 with no
body while leaving the workflow directory behind; no file is created or
modified. -/
theorem c10_get_creates_dir (fs : FileSystem) (wid : String)
    (habsent : fsStateFileGet fs wid = none) :
    (get_workflow_by_id fs wid).2.1 = 404
      ∧ (get_workflow_by_id fs wid).2.2 = none
      ∧ workflowDirPath wid ∈ (get_workflow_by_id fs wid).1.dirs
      ∧ (get_workflow_by_id fs wid).1.files = fs.files := by
  have hget1 : fsStateFileGet (applyFsOps fs (stateManagerInitOps wid)) wid
      = none := habsent
  unfold get_workflow_by_id
  simp only [hget1]
  refine ⟨by trivial, by trivial, ?_, by trivial⟩
  show workflowDirPath wid ∈ (applyFsOps fs (stateManagerInitOps wid)).dirs
  have hdirs : (applyFsOps fs (stateManagerInitOps wid)).dirs
      = fs.dirs ++ (pathPrefixes (workflowDirPath wid)).filter
          (fun d => !fs.dirs.contains d) := rfl
  rw [hdirs]
  by_cases hc : fs.dirs.contains (workflowDirPath wid) = true
  · exact List.mem_append_left _ (by simpa using hc)
  · simp only [Bool.not_eq_true] at hc
    refine List.mem_append_right _ (List.mem_filter_of_mem ?_ (by simpa using hc))
    show workflowDirPath wid ∈ pathPrefixes (workflowDirPath wid)
    have : pathPrefixes (workflowDirPath wid)
        = [[WORKFLOWS_DIR], [WORKFLOWS_DIR, wid]] := rfl
    rw [this]
    simp [workflowDirPath]

/-- **C10 witness**: the theorem applied to the empty file system and an id
that was never created. -/
theorem c10_get_creates_dir_witness :
    fsStateFileGet emptyFs "ghost" = none
      ∧ (get_workflow_by_id emptyFs "ghost").2.1 = 404
      ∧ workflowDirPath "ghost" ∈ (get_workflow_by_id emptyFs "ghost").1.dirs :=
  ⟨by decide,
   (c10_get_creates_dir emptyFs "ghost" (by decide)).1,
   (c10_get_creates_dir emptyFs "ghost" (by decide)).2.2.1⟩

end Cognitive
